import Mathlib

/-!
Verification of the ARC Raiders Blueprint Tracker core (src/app.py).

The program has two core functions:

* load_data: fetches a worksheet as a pandas DataFrame, uppercases all
  column names, renames the first column to the canonical lookup key
  BLUEPRINT (the guard in the code compares the first column name with
  itself and is therefore always true), drops rows whose BLUEPRINT cell
  is missing (dropna), and on any exception returns an empty DataFrame.

* get_blueprint_details: if the BLUEPRINT column is absent returns an
  empty DataFrame; otherwise filters the rows whose BLUEPRINT cell,
  lowercased, equals the lowercased query, copies them, and renames the
  columns of the copy for display (underscores to spaces, title case).

A pandas DataFrame is embedded as a header list of column names together
with a list of rows, each row a list of cells aligned with the header.
A cell is an Option String: none stands for a missing value (NaN).
Column selection by name resolves to the first index whose column name
matches, as pandas does for a unique column label.
-/

structure DataFrame where
  header : List String
  rows : List (List (Option String))
deriving Repr, DecidableEq

/-- The empty DataFrame, the embedding of pd.DataFrame(). -/
def emptyDF : DataFrame := ⟨[], []⟩

/-- ASCII lowercasing of a string, the embedding of Python str.lower
for the ASCII data this table holds. -/
def pyLower (s : String) : String := ⟨s.data.map Char.toLower⟩

/-- ASCII uppercasing of a string, the embedding of Python str.upper. -/
def pyUpper (s : String) : String := ⟨s.data.map Char.toUpper⟩

def dropLeadingWs : List Char → List Char
  | [] => []
  | c :: rest => if c.isWhitespace then dropLeadingWs rest else c :: rest

/-- Removal of leading and trailing whitespace, the embedding of Python
str.strip. Used only to state the spec claim about query stripping; the
source code never strips. -/
def pyStrip (s : String) : String :=
  ⟨(dropLeadingWs ((dropLeadingWs s.data).reverse)).reverse⟩

def pyTitleStep : List Char × Bool → Char → List Char × Bool
  | (acc, prevAlpha), c =>
    (acc ++ [if prevAlpha then c.toLower else c.toUpper], c.isAlpha)

/-- Title casing, the embedding of Python str.title: the first letter
after a non-letter is uppercased, every other letter lowercased. -/
def pyTitle (s : String) : String :=
  ⟨(s.data.foldl pyTitleStep ([], false)).1⟩

/-- Display renaming of one column name: underscores become spaces,
then title case; the embedding of col.replace and col.title on line 45. -/
def displayCol (c : String) : String :=
  pyTitle ⟨c.data.map (fun ch => if ch = '_' then ' ' else ch)⟩

/-- Index of the first column with the given name, the embedding of
pandas column selection by label. -/
def colIdx (name : String) : List String → Option Nat
  | [] => none
  | c :: rest => if c = name then some 0 else (colIdx name rest).map (· + 1)

/-- The cell of a row at column index i; out of range counts as missing. -/
def cellAt (r : List (Option String)) (i : Nat) : Option String :=
  r.getD i none

/-- Row predicate of line 42: the BLUEPRINT cell, lowercased, equals the
lowercased query; a missing cell never matches, as a pandas NaN compares
unequal after str.lower. -/
def rowMatches (q : String) (i : Nat) (r : List (Option String)) : Bool :=
  ((cellAt r i).map (fun s => pyLower s == pyLower q)).getD false

/-- The embedding of get_blueprint_details (src/app.py lines 36-47). -/
def get_blueprint_details (blueprint_name : String) (df : DataFrame) : DataFrame :=
  match colIdx "BLUEPRINT" df.header with
  | none => emptyDF
  | some i =>
    ⟨df.header.map displayCol, df.rows.filter (rowMatches blueprint_name i)⟩

/-- Header normalization of load_data lines 22-25: uppercase every
column name, then rename every column equal to the uppercased first
column name to BLUEPRINT. The conditional on line 24 compares the first
column name with itself and is always true, so the rename always runs. -/
def normalizeHeader (cols : List String) : List String :=
  match cols with
  | [] => []
  | c0 :: rest =>
    ((c0 :: rest).map pyUpper).map (fun c => if c = pyUpper c0 then "BLUEPRINT" else c)

/-- The embedding of df.dropna with subset BLUEPRINT (line 27): keep the
rows whose BLUEPRINT cell is present. A header without BLUEPRINT would
raise a KeyError, caught by the surrounding handler, giving the empty
DataFrame. -/
def dropnaBlueprint (df : DataFrame) : DataFrame :=
  match colIdx "BLUEPRINT" df.header with
  | none => emptyDF
  | some i => ⟨df.header, df.rows.filter (fun r => (cellAt r i).isSome)⟩

/-- The embedding of load_data (src/app.py lines 15-33). The remote
fetch is the explicit argument: an exception or the fetched table. An
exception, and also an IndexError from reading the first column name of
a table with no columns, lands in the generic handler, which returns an
empty DataFrame. -/
def load_data (fetch : Except String DataFrame) : DataFrame :=
  match fetch with
  | .error _ => emptyDF
  | .ok df =>
    if df.header.isEmpty then emptyDF
    else dropnaBlueprint ⟨normalizeHeader df.header, df.rows⟩

/-- A fresh copy of a frame, the embedding of DataFrame.copy on line 42. -/
def df_copy (df : DataFrame) : DataFrame := ⟨df.header, df.rows⟩

/-- In-place column renaming applied to a frame value, the embedding of
the assignment to matching_rows.columns on line 45. -/
def set_columns (cols : List String) (df : DataFrame) : DataFrame :=
  ⟨cols, df.rows⟩

/-- Step-by-step embedding of get_blueprint_details that carries the
input frame through the call: the result paired with the state of the
input frame after the call. The column assignment of line 45 acts on
the copy made on line 42, never on the input. -/
def get_blueprint_details_trace (blueprint_name : String) (df : DataFrame) :
    DataFrame × DataFrame :=
  match colIdx "BLUEPRINT" df.header with
  | none => (emptyDF, df)
  | some i =>
    let matching_rows := df_copy ⟨df.header, df.rows.filter (rowMatches blueprint_name i)⟩
    let renamed := set_columns (matching_rows.header.map displayCol) matching_rows
    (renamed, df)

/-- Modelled from the spec: the exact matching policy, case-insensitive
equality of the entire lookup-key cell with the entire query; a missing
cell matches nothing. Written from the words of the spec to compare with
the code. -/
def exactCellMatch (q : String) (cell : Option String) : Bool :=
  match cell with
  | some s => pyLower s == pyLower q
  | none => false

def hasSub (q : List Char) : List Char → Bool
  | [] => q.isEmpty
  | c :: rest => List.isPrefixOf q (c :: rest) || hasSub q rest

/-- Modelled from the spec: the substring containment policy, the
alternative matching policy the spec mentions; written from the words of
the spec to compare with the code. -/
def substringCellMatch (q : String) (cell : Option String) : Bool :=
  match cell with
  | some s => hasSub (pyLower q).data (pyLower s).data
  | none => false

/-- A dataset with one record keyed WOLFPACK. -/
def dsWolf : DataFrame :=
  ⟨["BLUEPRINT", "LOCATION"], [[some "WOLFPACK", some "DAM"]]⟩

/-- A dataset with two records keyed IL TORO with differing other
columns, and one record keyed differently between them. -/
def dsToro : DataFrame :=
  ⟨["BLUEPRINT", "LOCATION"],
   [[some "IL TORO", some "BURIED CITY"],
    [some "STILETTO", some "DAM"],
    [some "IL TORO", some "SPACEPORT"]]⟩

/-- A dataset without the BLUEPRINT column. -/
def dsNoKey : DataFrame :=
  ⟨["NAME", "LOCATION"], [[some "WOLFPACK", some "DAM"]]⟩

/-- A dataset whose single key keeps surrounding whitespace. -/
def dsPadded : DataFrame :=
  ⟨["BLUEPRINT"], [[some "  WOLFPACK  "]]⟩

example : get_blueprint_details "wolfpack" dsWolf =
    ⟨["Blueprint", "Location"], [[some "WOLFPACK", some "DAM"]]⟩ := by decide

example : get_blueprint_details "x" dsNoKey = emptyDF := by decide

example : load_data (Except.ok ⟨["name"], [[some ""], [none], [some "A"]]⟩) =
    ⟨["BLUEPRINT"], [[some ""], [some "A"]]⟩ := by decide

/-! Helper lemmas -/

lemma colIdx_eq_none_of_not_mem (name : String) (l : List String) (hn : name ∉ l) :
    colIdx name l = none := by
  induction l with
  | nil => rfl
  | cons c rest ih =>
    have h1 : ¬ c = name := fun h => hn (by simp [h])
    have h2 : name ∉ rest := fun h => hn (List.mem_cons_of_mem _ h)
    simp [colIdx, h1, ih h2]

lemma normalizeHeader_cons (c0 : String) (rest : List String) :
    normalizeHeader (c0 :: rest) =
      "BLUEPRINT" :: (rest.map pyUpper).map (fun c => if c = pyUpper c0 then "BLUEPRINT" else c) := by
  simp [normalizeHeader]

lemma colIdx_normalizeHeader (c0 : String) (rest : List String) :
    colIdx "BLUEPRINT" (normalizeHeader (c0 :: rest)) = some 0 := by
  rw [normalizeHeader_cons]
  simp [colIdx]

lemma load_ok_cons (df : DataFrame) (c0 : String) (rest : List String)
    (h : df.header = c0 :: rest) :
    load_data (Except.ok df) =
      ⟨normalizeHeader (c0 :: rest), df.rows.filter (fun r => (cellAt r 0).isSome)⟩ := by
  unfold load_data
  simp only [h, List.isEmpty_cons, Bool.false_eq_true, if_false]
  unfold dropnaBlueprint
  simp only [colIdx_normalizeHeader c0 rest]

lemma rowMatches_congr (q1 q2 : String) (h : pyLower q1 = pyLower q2) :
    rowMatches q1 = rowMatches q2 := by
  funext i r
  simp [rowMatches, h]

/-! Theorems for the claims -/

/-- C4: get_blueprint_details is case-insensitive in its query: two
queries with the same lowercasing give the same result on every
dataset. -/
theorem c4_case_insensitive (q1 q2 : String) (ds : DataFrame)
    (h : pyLower q1 = pyLower q2) :
    get_blueprint_details q1 ds = get_blueprint_details q2 ds := by
  unfold get_blueprint_details
  rw [rowMatches_congr q1 q2 h]

/-- Witness for C4 at the WOLFPACK spellings of the spec. -/
theorem c4_case_insensitive_witness :
    pyLower "WOLFPACK" = pyLower "wolfpack" ∧
    get_blueprint_details "WOLFPACK" dsWolf = get_blueprint_details "wolfpack" dsWolf ∧
    get_blueprint_details "wolfpack" dsWolf = get_blueprint_details "WolfPack" dsWolf :=
  ⟨by decide, c4_case_insensitive "WOLFPACK" "wolfpack" dsWolf (by decide),
   c4_case_insensitive "wolfpack" "WolfPack" dsWolf (by decide)⟩

/-- C5: on a dataset holding the lookup-key column, get_blueprint_details
returns exactly the rows whose key matches, as a filter of the rows, so
its output is a sublist of the rows (original order) and every matching
row is in the output. -/
theorem c5_returns_all_matches_in_order (q : String) (ds : DataFrame) (i : Nat)
    (h : colIdx "BLUEPRINT" ds.header = some i) :
    (get_blueprint_details q ds).rows = ds.rows.filter (rowMatches q i) ∧
    List.Sublist (get_blueprint_details q ds).rows ds.rows ∧
    ∀ r ∈ ds.rows, rowMatches q i r = true → r ∈ (get_blueprint_details q ds).rows := by
  have hfind : get_blueprint_details q ds =
      ⟨ds.header.map displayCol, ds.rows.filter (rowMatches q i)⟩ := by
    unfold get_blueprint_details
    rw [h]
  refine ⟨by rw [hfind], ?_, ?_⟩
  · rw [hfind]
    exact List.filter_sublist ds.rows
  · intro r hr hm
    rw [hfind]
    exact List.mem_filter.mpr ⟨hr, hm⟩

/-- Witness for C5: the dataset with two IL TORO records; both come
back, in original order. -/
theorem c5_witness :
    colIdx "BLUEPRINT" dsToro.header = some 0 ∧
    (get_blueprint_details "il toro" dsToro).rows =
      [[some "IL TORO", some "BURIED CITY"], [some "IL TORO", some "SPACEPORT"]] ∧
    (get_blueprint_details "il toro" dsToro).rows = dsToro.rows.filter (rowMatches "il toro" 0) :=
  ⟨by decide, by decide, (c5_returns_all_matches_in_order "il toro" dsToro 0 (by decide)).1⟩

/-- C6: on a dataset holding the lookup-key column, a query matching no
row gives an empty row sequence, not an error. -/
theorem c6_no_match_returns_empty (q : String) (ds : DataFrame) (i : Nat)
    (h : colIdx "BLUEPRINT" ds.header = some i)
    (hnone : ∀ r ∈ ds.rows, rowMatches q i r = false) :
    (get_blueprint_details q ds).rows = [] := by
  unfold get_blueprint_details
  rw [h]
  show ds.rows.filter (rowMatches q i) = []
  exact List.filter_eq_nil_iff.mpr (fun r hr => by simp [hnone r hr])

/-- Witness for C6: no record is keyed GHOST, the result is empty. -/
theorem c6_witness :
    colIdx "BLUEPRINT" dsToro.header = some 0 ∧
    (∀ r ∈ dsToro.rows, rowMatches "ghost" 0 r = false) ∧
    (get_blueprint_details "ghost" dsToro).rows = [] :=
  ⟨by decide, by decide, c6_no_match_returns_empty "ghost" dsToro 0 (by decide) (by decide)⟩

/-- C7 counterexample: the query is not stripped before matching; on the
WOLFPACK dataset a padded query gives a different result than its
stripped form. -/
theorem c7_counterexample :
    get_blueprint_details "  wolfpack  " dsWolf ≠
      get_blueprint_details (pyStrip "  wolfpack  ") dsWolf := by decide

/-- C7 amended: get_blueprint_details does not strip whitespace from the
query; the query is used verbatim apart from lowercasing, so surrounding
whitespace must match the stored key exactly. -/
theorem c7_no_stripping :
    pyStrip "  wolfpack  " = "wolfpack" ∧
    (get_blueprint_details "  wolfpack  " dsWolf).rows = [] ∧
    (get_blueprint_details "wolfpack" dsWolf).rows = [[some "WOLFPACK", some "DAM"]] ∧
    (get_blueprint_details "  wolfpack  " dsPadded).rows = [[some "  WOLFPACK  "]] :=
  ⟨by decide, by decide, by decide, by decide⟩

/-- C2 counterexample: on a dataset without the BLUEPRINT column,
get_blueprint_details returns the empty DataFrame, an empty result, not
a distinguishable SchemaError value. -/
theorem c2_counterexample :
    get_blueprint_details "wolfpack" dsNoKey = emptyDF := by decide

/-- C2 amended: with the lookup-key column absent, get_blueprint_details
returns the empty DataFrame for every query; no SchemaError is
reported. -/
theorem c2_returns_empty_frame (q : String) (ds : DataFrame)
    (h : "BLUEPRINT" ∉ ds.header) :
    get_blueprint_details q ds = emptyDF := by
  unfold get_blueprint_details
  rw [colIdx_eq_none_of_not_mem _ _ h]

/-- Witness for C2 amended on the dataset without a BLUEPRINT column. -/
theorem c2_returns_empty_frame_witness :
    "BLUEPRINT" ∉ dsNoKey.header ∧
    get_blueprint_details "anything" dsNoKey = emptyDF :=
  ⟨by decide, c2_returns_empty_frame "anything" dsNoKey (by decide)⟩

/-- C3 counterexample: a failed fetch makes load_data return the empty
DataFrame, the very value a successful load of an empty table returns;
there is no distinct LoadError value. -/
theorem c3_counterexample :
    load_data (Except.error "fetch failed") = emptyDF ∧
    load_data (Except.error "fetch failed") = load_data (Except.ok emptyDF) :=
  ⟨rfl, rfl⟩

/-- C3 amended: every failure of the fetch is reported by returning the
empty DataFrame; failures are indistinguishable from an empty dataset. -/
theorem c3_error_returns_empty (msg : String) :
    load_data (Except.error msg) = emptyDF := rfl

/-- C1 counterexample: a fetched table whose first cell is the empty
string survives the drop step, so a loaded dataset can hold a record
with an empty (though present) lookup-key cell. -/
theorem c1_counterexample :
    load_data (Except.ok ⟨["NAME"], [[some ""]]⟩) =
      ⟨["BLUEPRINT"], [[some ""]]⟩ ∧
    colIdx "BLUEPRINT" (load_data (Except.ok ⟨["NAME"], [[some ""]]⟩)).header = some 0 ∧
    cellAt [some ""] 0 = some "" := by
  refine ⟨by decide, by decide, by decide⟩

/-- C1 amended: every row of a loaded dataset has a present (non-missing)
lookup-key cell; the drop step removes missing cells but keeps
empty-string cells. -/
theorem c1_key_present (fetch : Except String DataFrame)
    (r : List (Option String)) (hr : r ∈ (load_data fetch).rows) :
    ∃ i, colIdx "BLUEPRINT" (load_data fetch).header = some i ∧
      (cellAt r i).isSome = true := by
  match fetch with
  | .error msg =>
    simp [load_data, emptyDF] at hr
  | .ok df =>
    match hh : df.header with
    | [] =>
      unfold load_data at hr
      simp [hh, emptyDF] at hr
    | c0 :: rest =>
      rw [load_ok_cons df c0 rest hh] at hr ⊢
      refine ⟨0, colIdx_normalizeHeader c0 rest, ?_⟩
      exact (List.mem_filter.mp hr).2

/-- Witness for C1 amended at a concrete loaded dataset. -/
theorem c1_key_present_witness :
    [some "A"] ∈ (load_data (Except.ok ⟨["Name"], [[some "A"], [none]]⟩)).rows ∧
    ∃ i, colIdx "BLUEPRINT"
        (load_data (Except.ok ⟨["Name"], [[some "A"], [none]]⟩)).header = some i ∧
      (cellAt [some "A"] i).isSome = true :=
  ⟨by decide, c1_key_present (Except.ok ⟨["Name"], [[some "A"], [none]]⟩) [some "A"] (by decide)⟩

/-- C8: a successful load uppercases every column name and renames every
column carrying the uppercased first header name to BLUEPRINT, whatever
the first header was; the first column of the result is BLUEPRINT. -/
theorem c8_header_normalized (df : DataFrame) (c0 : String) (rest : List String)
    (h : df.header = c0 :: rest) :
    (load_data (Except.ok df)).header =
      ((c0 :: rest).map pyUpper).map (fun c => if c = pyUpper c0 then "BLUEPRINT" else c) ∧
    (load_data (Except.ok df)).header.headD "" = "BLUEPRINT" := by
  rw [load_ok_cons df c0 rest h]
  constructor
  · show normalizeHeader (c0 :: rest) = _
    simp [normalizeHeader]
  · show (normalizeHeader (c0 :: rest)).headD "" = "BLUEPRINT"
    rw [normalizeHeader_cons]
    rfl

/-- Witness for C8 at a lowercase two-column header. -/
theorem c8_header_normalized_witness :
    (load_data (Except.ok (⟨["item name", "loc"], [[some "X", some "Y"]]⟩ : DataFrame))).header =
      ((["item name", "loc"] : List String).map pyUpper).map
        (fun c => if c = pyUpper "item name" then "BLUEPRINT" else c) ∧
    (load_data (Except.ok (⟨["item name", "loc"],
        [[some "X", some "Y"]]⟩ : DataFrame))).header.headD "" = "BLUEPRINT" :=
  c8_header_normalized ⟨["item name", "loc"], [[some "X", some "Y"]]⟩ "item name" ["loc"] rfl

/-- C9: the step-by-step embedding of get_blueprint_details leaves the
input frame untouched, rows and header alike, and its result is the
result of get_blueprint_details; the display renaming happens on the
copy only. -/
theorem c9_input_unchanged (q : String) (ds : DataFrame) :
    (get_blueprint_details_trace q ds).2 = ds ∧
    (get_blueprint_details_trace q ds).2.rows = ds.rows ∧
    (get_blueprint_details_trace q ds).2.header = ds.header ∧
    (get_blueprint_details_trace q ds).1 = get_blueprint_details q ds := by
  rcases h : colIdx "BLUEPRINT" ds.header with _ | i <;>
    simp [get_blueprint_details_trace, get_blueprint_details, df_copy, set_columns, h]

lemma rowMatches_eq_exact (q : String) (i : Nat) (r : List (Option String)) :
    rowMatches q i r = exactCellMatch q (cellAt r i) := by
  cases hc : cellAt r i <;> simp [rowMatches, exactCellMatch, hc]

lemma pyLower_eq_empty_iff (s : String) : pyLower s = "" ↔ s = "" := by
  cases s with
  | mk data =>
    rw [String.ext_iff, String.ext_iff]
    simp [pyLower]

lemma rowMatches_empty_query (i : Nat) (r : List (Option String)) :
    rowMatches "" i r = (cellAt r i == some "") := by
  cases hc : cellAt r i with
  | none => simp [rowMatches, hc]
  | some s =>
    simp only [rowMatches, hc, Option.map_some, Option.getD_some]
    by_cases hs : s = ""
    · subst hs; rfl
    · have h1 : ¬ pyLower s = pyLower "" := fun h => hs ((pyLower_eq_empty_iff s).mp h)
      simp [hs, h1]

/-- C10: the matching policy of get_blueprint_details is whole-value
exact match, the spec-modelled exactCellMatch, not substring
containment: a query that is a proper substring of a key (wolf inside
WOLFPACK) would match under the substring policy but returns nothing,
and the empty query matches exactly the rows whose key cell is the
empty string. -/
theorem c10_exact_match_policy :
    (∀ ds q i, colIdx "BLUEPRINT" ds.header = some i →
      (get_blueprint_details q ds).rows =
        ds.rows.filter (fun r => exactCellMatch q (cellAt r i))) ∧
    (substringCellMatch "wolf" (some "WOLFPACK") = true ∧
      (get_blueprint_details "wolf" dsWolf).rows = []) ∧
    (∀ ds i, colIdx "BLUEPRINT" ds.header = some i →
      (get_blueprint_details "" ds).rows =
        ds.rows.filter (fun r => cellAt r i == some "")) := by
  refine ⟨?_, ⟨by decide, by decide⟩, ?_⟩
  · intro ds q i h
    unfold get_blueprint_details
    rw [h]
    show ds.rows.filter (rowMatches q i) = _
    rw [funext (rowMatches_eq_exact q i)]
  · intro ds i h
    unfold get_blueprint_details
    rw [h]
    show ds.rows.filter (rowMatches "" i) = _
    rw [funext (rowMatches_empty_query i)]

/-- Witness for C10 instantiating its universal parts on a concrete
dataset. -/
theorem c10_witness :
    colIdx "BLUEPRINT" dsToro.header = some 0 ∧
    (get_blueprint_details "stiletto" dsToro).rows =
      dsToro.rows.filter (fun r => exactCellMatch "stiletto" (cellAt r 0)) ∧
    (get_blueprint_details "" dsToro).rows =
      dsToro.rows.filter (fun r => cellAt r 0 == some "") :=
  ⟨by decide, c10_exact_match_policy.1 dsToro "stiletto" 0 (by decide),
   c10_exact_match_policy.2.2 dsToro 0 (by decide)⟩
